import Mathlib

/-!
Verification of the test-orchestration subsystem of the playwrigthMCP
repository: the prompt interpreter (`mcp_server.py`), the two test
executors (`test_executor.py`, `enhanced_test_executor.py`) and the chat
route (`routes/chat.py`), shallowly embedded in Lean 4.

External effects (browser operations, HTTP requests) are modelled by
oracle records whose fields give the outcome of each operation
(`Except String _` when the Python call can raise); all control flow,
string processing and store updates are translated statement by
statement from the Python source.
-/

namespace PWMCP

/-! ## Text utilities

Python string primitives used by the source: `str.lower`, the `in`
substring test, and the small regular expressions appearing in
`mcp_server.py` and the executors, implemented directly over `List Char`.
-/

/-- ASCII lower-casing of one character (Python `str.lower` on the ASCII
inputs the heuristics deal in). -/
def lowerChar (c : Char) : Char :=
  if 'A' ≤ c ∧ c ≤ 'Z' then Char.ofNat (c.toNat + 32) else c

/-- Python `str.lower` (ASCII). -/
def lowerStr (s : String) : String :=
  String.mk (s.toList.map lowerChar)

/-- Python `needle in hay` substring test over character lists. -/
def subList (n : List Char) : List Char → Bool
  | [] => n.isEmpty
  | c :: t => n.isPrefixOf (c :: t) || subList n t

/-- Python `needle in hay` substring test on strings. -/
def subStr (needle hay : String) : Bool :=
  subList needle.toList hay.toList

/-- Characters matched by the regex class `\s` (ASCII). -/
def isPySpace (c : Char) : Bool :=
  c == ' ' || c == '\t' || c == '\n' || c == '\r' || c == '\x0b' || c == '\x0c'

/-- First match of the regex `https?://[^\s]+` (used by `_extract_url`,
`_parse_actions_from_prompt` and `_parse_api_from_prompt`): scan left to
right for a position starting with `http://` or `https://`, then take the
maximal run of non-whitespace characters, which must be non-empty. -/
def findUrlFrom : List Char → Option (List Char)
  | [] => none
  | c :: t =>
    let l := c :: t
    if ("https://".toList).isPrefixOf l then
      let body := (l.drop 8).takeWhile (fun d => !isPySpace d)
      if body.isEmpty then findUrlFrom t else some ("https://".toList ++ body)
    else if ("http://".toList).isPrefixOf l then
      let body := (l.drop 7).takeWhile (fun d => !isPySpace d)
      if body.isEmpty then findUrlFrom t else some ("http://".toList ++ body)
    else findUrlFrom t

/-- Character class `[a-zA-Z0-9.-]` of the domain regex. -/
def isDomainChar (c : Char) : Bool :=
  c.isAlphanum || c == '.' || c == '-'

/-- Captured group of `[a-zA-Z0-9.-]+\.[a-zA-Z]{2,}` inside a maximal run
`run` of domain characters, with the regex engine's greedy backtracking:
the `+` part is the longest prefix that is followed by a dot and at least
two letters, and `[a-zA-Z]{2,}` then takes the maximal letter run. -/
def domCapture (run : List Char) : Option (List Char) :=
  let idxs := ((List.range run.length).filter (fun i =>
    run.get? i == some '.' && 1 ≤ i &&
      2 ≤ ((run.drop (i+1)).takeWhile Char.isAlpha).length)).reverse
  match idxs.head? with
  | some i => some (run.take i ++ '.' :: (run.drop (i+1)).takeWhile Char.isAlpha)
  | none => none

/-- First captured group of `(?:w1|w2|...)\s+([a-zA-Z0-9.-]+\.[a-zA-Z]{2,})`
scanning left to right (the preposition alternatives of the two
`_extract_url`/`_parse_actions_from_prompt` domain fallbacks; the
alternatives are mutually exclusive at any one position). -/
def domainFrom (words : List (List Char)) : List Char → Option (List Char)
  | [] => none
  | c :: t =>
    let l := c :: t
    match words.find? (fun w => w.isPrefixOf l) with
    | some w =>
      let rest := l.drop w.length
      let sp := rest.takeWhile isPySpace
      if sp.isEmpty then domainFrom words t
      else
        match domCapture ((rest.drop sp.length).takeWhile isDomainChar) with
        | some d => some d
        | none => domainFrom words t
    | none => domainFrom words t

/-- First captured group of `"([^"]*)"` (quoted text inside
`_extract_text_to_type`). -/
def firstQuoted : List Char → Option (List Char)
  | [] => none
  | c :: t =>
    if c == '"' then
      let body := t.takeWhile (fun d => d != '"')
      if (t.drop body.length).head? == some '"' then some body else none
    else firstQuoted t

/-- First match of `/[a-zA-Z0-9/_-]+` (endpoint fallback of
`_parse_api_from_prompt`). -/
def findEndpointFrom : List Char → Option (List Char)
  | [] => none
  | c :: t =>
    if c == '/' then
      let body := t.takeWhile (fun d => d.isAlphanum || d == '/' || d == '_' || d == '-')
      if body.isEmpty then findEndpointFrom t else some ('/' :: body)
    else findEndpointFrom t

/-- Python `'\n'.join(lines)` at the character level. -/
def joinL : List (List Char) → List Char
  | [] => []
  | [x] => x
  | x :: y :: t => x ++ '\n' :: joinL (y :: t)

/-- Python `'\n'.join(lines)` on strings. -/
def joinLines (ls : List String) : String :=
  String.mk (joinL (ls.map String.toList))

/-- Python slice `s[:n]`. -/
def takeStr (n : Nat) (s : String) : String :=
  String.mk (s.toList.take n)

/-- Split at newlines: a regex without `re.DOTALL` confines `.*` to one
line, so `re.search` over the whole text is a per-line search. -/
def splitOnNl : List Char → List (List Char)
  | [] => [[]]
  | c :: t =>
    if c == '\n' then [] :: splitOnNl t
    else
      match splitOnNl t with
      | [] => [[c]]
      | l :: ls => (c :: l) :: ls

/-- Ordered-containment search for a pattern `seg1.*seg2.*...` on one
line: find the earliest occurrence of each segment in turn. -/
def segsInOrder : List (List Char) → List Char → Bool
  | [], _ => true
  | seg :: rest, s =>
    match findDrop seg s with
    | none => false
    | some rem => segsInOrder rest rem
where
  /-- Remainder after the first occurrence of `needle`. -/
  findDrop (needle : List Char) : List Char → Option (List Char)
    | [] => if needle.isEmpty then some [] else none
    | c :: t =>
      if needle.isPrefixOf (c :: t) then some ((c :: t).drop needle.length)
      else findDrop needle t

/-- Search in the manner of Python re.search for a pattern made of
literal segments joined by `.*`. -/
def dotStarSearch (segs : List String) (msg : String) : Bool :=
  (splitOnNl msg.toList).any (fun line => segsInOrder (segs.map String.toList) line)

/-! ## Data model -/

/-- Step status strings `'success'` / `'failed'`. -/
inductive SStatus
  | success
  | failed
deriving DecidableEq, Repr

/-- Job / result status strings. -/
inductive TStatus
  | pending
  | running
  | completed
  | failed
  | notFound
deriving DecidableEq, Repr

/-- The tagged action dictionaries produced by the interpreters
(`{'type': 'navigate', 'url': ...}` and so on). -/
inductive Action
  | navigate (url : String)
  | click (target : String)
  | typeText (text : String)
  | verify (condition : String)
  | screenshot
deriving DecidableEq, Repr

/-- One executed step (`{'action', 'status', 'screenshot', 'logs'}`). -/
structure StepResult where
  action : String
  status : SStatus
  screenshot : Option String
  logs : List String
deriving DecidableEq, Repr

/-- The result dictionary of one test run (`execution_time`, a wall-clock
float, is not modelled). -/
structure TestResultR where
  testId : String
  status : TStatus
  success : Bool
  steps : List StepResult
  generatedScript : String
  error : Option String
deriving DecidableEq, Repr

/-- Browser options (`{'browser', 'headless', 'timeout'}`). -/
structure Options where
  browser : String
  headless : Bool
  timeout : Nat
deriving DecidableEq, Repr

/-- The `test_request` dictionary built by the chat route. -/
structure TestRequest where
  testId : String
  prompt : String
  testType : String
  targetUrl : Option String
  options : Options
deriving DecidableEq, Repr

/-- The executor's in-process store: the `test_results` and `test_status`
dictionaries, as association lists whose `lookup` sees the newest
binding (Python dict assignment overwrites). -/
structure Store where
  testStatus : List (String × TStatus)
  testResults : List (String × TestResultR)
deriving DecidableEq, Repr

/-- The dictionary returned by `get_test_status`. -/
structure StatusView where
  testId : String
  status : TStatus
deriving DecidableEq, Repr

/-! ## Prompt interpreter (services/mcp_server.py, class MCPServer) -/

namespace MCPServer

/-- Keyword set of `_is_test_request`. -/
def test_keywords : List String :=
  ["test", "check", "verify", "validate", "ensure",
   "screenshot", "click", "navigate", "api", "endpoint"]

/-- Method `_is_test_request` (the argument is already lower-cased by the
caller, as in the source). -/
def is_test_request (message : String) : Bool :=
  test_keywords.any (fun keyword => subStr keyword message)

/-- Regex patterns of `self.test_patterns['ui_test']`, each as its list
of literal segments joined by `.*`. -/
def ui_test_patterns : List (List String) :=
  [["test", "login"], ["check", "form"], ["verify", "button"],
   ["click", "element"], ["navigate", "to"], ["screenshot"],
   ["test", "ui"], ["check", "page"], ["verify", "element"]]

/-- Regex patterns of `self.test_patterns['api_test']`. -/
def api_test_patterns : List (List String) :=
  [["test", "api"], ["check", "endpoint"], ["verify", "response"],
   ["test", "request"], ["api", "call"], ["http", "request"],
   ["rest", "api"], ["json", "response"]]

/-- Regex patterns of `self.test_patterns['mixed_test']`. -/
def mixed_test_patterns : List (List String) :=
  [["test", "workflow"], ["end", "to", "end"],
   ["integration", "test"], ["full", "test"]]

/-- Method `_determine_test_type`: first matching pattern group wins in
dict insertion order ui_test, api_test, mixed_test; default ui. -/
def determine_test_type (message : String) : String :=
  if ui_test_patterns.any (fun p => dotStarSearch p message) then "ui"
  else if api_test_patterns.any (fun p => dotStarSearch p message) then "api"
  else if mixed_test_patterns.any (fun p => dotStarSearch p message) then "mixed"
  else "ui"

/-- Method `_extract_url`: first absolute URL, else a domain after one of
the prepositions on/at/from materialised as https, else None. -/
def extract_url (message : String) : Option String :=
  match findUrlFrom message.toList with
  | some u => some (String.mk u)
  | none =>
    match domainFrom ["on".toList, "at".toList, "from".toList] message.toList with
    | some d => some ("https://" ++ String.mk d)
    | none => none

/-- Method `_extract_click_targets`. -/
def extract_click_targets (message : String) : List String :=
  let ui_elements := ["button", "link", "menu", "tab", "checkbox", "radio",
                      "submit", "login", "signup", "search", "close", "cancel"]
  let targets := ui_elements.filter (fun element => subStr element message)
  if targets.isEmpty then ["button"] else targets

/-- Method `_extract_text_to_type`. -/
def extract_text_to_type (message : String) : String :=
  match firstQuoted message.toList with
  | some q => String.mk q
  | none =>
    if subStr "username" message || subStr "email" message then "test@example.com"
    else if subStr "password" message then "testpassword123"
    else "test input"

/-- Method `_extract_verification_condition`. -/
def extract_verification_condition (message : String) : String :=
  if subStr "success" message then "success_message"
  else if subStr "error" message then "error_message"
  else if subStr "redirect" message then "page_redirect"
  else if subStr "element" message then "element_present"
  else "page_loaded"

/-- Navigate block of `_parse_actions` (trigger words
`self.action_patterns['navigate']`). -/
def navigate_block (message : String) : List Action :=
  if ["go to", "navigate to", "visit", "open"].any (fun p => subStr p message) then
    match extract_url message with
    | some url => [Action.navigate url]
    | none => []
  else []

/-- Click block of `_parse_actions`. -/
def click_block (message : String) : List Action :=
  if ["click", "press", "tap"].any (fun p => subStr p message) then
    (extract_click_targets message).map Action.click
  else []

/-- Type block of `_parse_actions`. -/
def type_block (message : String) : List Action :=
  if ["type", "enter", "input", "fill"].any (fun p => subStr p message) then
    [Action.typeText (extract_text_to_type message)]
  else []

/-- Verify block of `_parse_actions`. -/
def verify_block (message : String) : List Action :=
  if ["verify", "check", "validate", "ensure"].any (fun p => subStr p message) then
    [Action.verify (extract_verification_condition message)]
  else []

/-- Screenshot block of `_parse_actions`. -/
def screenshot_block (message : String) : List Action :=
  if ["screenshot", "capture", "image"].any (fun p => subStr p message) then
    [Action.screenshot]
  else []

/-- Method `_parse_actions`: the five kind blocks are appended in the
fixed source order navigate, click, type, verify, screenshot. -/
def parse_actions (message : String) : List Action :=
  navigate_block message ++ click_block message ++ type_block message
    ++ verify_block message ++ screenshot_block message

/-- Method `_generate_conversational_response`. -/
def generate_conversational_response (message : String) : String :=
  let ml := lowerStr message
  if ["hello", "hi", "hey"].any (fun greeting => subStr greeting ml) then
    "Hello! I\x27m here to help you with UI and API testing. You can ask me to test websites, check forms, verify APIs, or take screenshots. What would you like to test?"
  else if ["help", "what can you do", "how"].any (fun keyword => subStr keyword ml) then
    "I can help you with various types of testing:\n\nğŸ” **UI Testing**: Test login forms, buttons, navigation, take screenshots\nğŸŒ **API Testing**: Check endpoints, verify responses, validate JSON\nğŸ”„ **Mixed Testing**: End-to-end workflows combining UI and API tests\n\nJust describe what you want to test in natural language! For example:\n- \"Test the login form on example.com\"\n- \"Check if the API endpoint /users returns valid JSON\"\n- \"Take a screenshot of the homepage\"\n"
  else
    "I understand. I\x27m here to help you with testing. What would you like me to test for you?"

/-- Return value of `process_message`: either the conversational reply
dictionary or the parsed test-request dictionary. -/
inductive Response
  | conversational (content : String)
  | testRequest (testType : String) (targetUrl : Option String)
      (actions : List Action) (options : Options)
deriving DecidableEq, Repr

/-- Method `process_message`. -/
def process_message (message : String) : Response :=
  let message_lower := lowerStr message
  if is_test_request message_lower then
    Response.testRequest (determine_test_type message_lower)
      (extract_url message) (parse_actions message_lower)
      { browser := "chromium", headless := true, timeout := 30000 }
  else
    Response.conversational (generate_conversational_response message)

end MCPServer

/-! ## Test executor (services/test_executor.py, class TestExecutor) -/

/-- Action loop of `_execute_ui_test` (test_executor.py lines 109-114 and
enhanced_test_executor.py lines 124-129): execute each action in order,
append its step, and break after the first step whose status is not
success. -/
def runActionLoop (exec : Action → StepResult) : List Action → List StepResult
  | [] => []
  | a :: rest =>
    let s := exec a
    if s.status = SStatus.success then s :: runActionLoop exec rest else [s]

namespace TestExecutor

/-- Oracle for the Playwright page handle used by
`TestExecutor._execute_action`: each field is the outcome of the
corresponding page operation (per-selector operations whose exceptions
the source swallows with try/except-continue are booleans; operations
whose exceptions reach the outer except are Except values). -/
structure PageT where
  goto : String → Except String Unit
  clickSel : String → Bool
  fillSel : String → Bool
  waitSel : String → Bool
  title : Except String String
  navShot : Except String String
  clickShot : Except String String
  actShot : Except String String
  waitT : Except String Unit

/-- Method `_get_selectors_for_target`. -/
def get_selectors_for_target (target : String) : List String :=
  if target = "login" then
    ["button[type=\"submit\"]", "input[type=\"submit\"]",
     "button:has-text(\"Login\")", "button:has-text(\"Sign In\")",
     ".login-button", "#login-button"]
  else if target = "submit" then
    ["button[type=\"submit\"]", "input[type=\"submit\"]",
     "button:has-text(\"Submit\")", ".submit-button"]
  else if target = "button" then
    ["button", "input[type=\"button\"]", "input[type=\"submit\"]", ".btn"]
  else
    ["button:has-text(\"" ++ target ++ "\")", "." ++ target, "#" ++ target]

/-- Method `_execute_action` of TestExecutor (lines 199-341). The final
Python `else` branch for an unknown `action['type']` string is
unreachable here because `Action` is the closed set of tags the
interpreters produce. -/
def execute_action (page : PageT) : Action → StepResult
  | Action.navigate url =>
    match page.goto url with
    | Except.error e =>
      { action := "navigate", status := SStatus.failed, screenshot := none,
        logs := [s!"Error executing navigate: {e}"] }
    | Except.ok _ =>
      match page.navShot with
      | Except.error e =>
        { action := "navigate", status := SStatus.failed, screenshot := none,
          logs := [s!"Error executing navigate: {e}"] }
      | Except.ok b64 =>
        { action := s!"navigate to {url}", status := SStatus.success,
          screenshot := some b64, logs := [s!"Navigated to {url}"] }
  | Action.click target =>
    let selectors := get_selectors_for_target target
    match selectors.find? page.clickSel with
    | none =>
      { action := s!"click {target}", status := SStatus.failed, screenshot := none,
        logs := [s!"Could not find {target} to click"] }
    | some selector =>
      let logs := [s!"Clicked {target} using selector: {selector}"]
      match page.waitT with
      | Except.error e =>
        { action := "click", status := SStatus.failed, screenshot := none,
          logs := [s!"Error executing click: {e}"] }
      | Except.ok _ =>
        match page.clickShot with
        | Except.error e =>
          { action := "click", status := SStatus.failed, screenshot := none,
            logs := [s!"Error executing click: {e}"] }
        | Except.ok b64 =>
          { action := s!"click {target}", status := SStatus.success,
            screenshot := some b64, logs := logs }
  | Action.typeText text =>
    let input_selectors := ["input[type=\"text\"]", "input[type=\"email\"]",
                            "input[type=\"password\"]", "textarea"]
    match input_selectors.find? page.fillSel with
    | none =>
      { action := s!"type \x27{text}\x27", status := SStatus.failed, screenshot := none,
        logs := ["Could not find input field to type into"] }
    | some selector =>
      { action := s!"type \x27{text}\x27", status := SStatus.success, screenshot := none,
        logs := [s!"Typed \x27{text}\x27 into {selector}"] }
  | Action.verify condition =>
    if condition = "page_loaded" then
      match page.title with
      | Except.error e =>
        { action := "verify", status := SStatus.failed, screenshot := none,
          logs := [s!"Error executing verify: {e}"] }
      | Except.ok title =>
        { action := s!"verify {condition}", status := SStatus.success,
          screenshot := none, logs := [s!"Page loaded with title: {title}"] }
    else if condition = "element_present" then
      let success_selectors := [".success", ".alert-success", "[data-testid=\"success\"]"]
      let logs :=
        match success_selectors.find? page.waitSel with
        | some selector => [s!"Found success element: {selector}"]
        | none => ["No success elements found"]
      { action := s!"verify {condition}", status := SStatus.success,
        screenshot := none, logs := logs }
    else
      { action := s!"verify {condition}", status := SStatus.success,
        screenshot := none, logs := [] }
  | Action.screenshot =>
    match page.actShot with
    | Except.error e =>
      { action := "screenshot", status := SStatus.failed, screenshot := none,
        logs := [s!"Error executing screenshot: {e}"] }
    | Except.ok b64 =>
      { action := "screenshot", status := SStatus.success,
        screenshot := some b64, logs := ["Screenshot captured"] }

/-- Method `_parse_actions_from_prompt` of TestExecutor (lines 343-388). -/
def parse_actions_from_prompt (prompt : String) : List Action :=
  let prompt_lower := lowerStr prompt
  let urls : Option String :=
    match findUrlFrom prompt.toList with
    | some u => some (String.mk u)
    | none =>
      match domainFrom ["on".toList, "at".toList, "from".toList] prompt.toList with
      | some d => some ("https://" ++ String.mk d)
      | none => none
  let nav : List Action :=
    match urls with
    | some url => [Action.navigate url]
    | none => []
  let clk : List Action :=
    if ["click", "press", "tap"].any (fun w => subStr w prompt_lower) then
      if subStr "login" prompt_lower then [Action.click "login"]
      else if subStr "submit" prompt_lower then [Action.click "submit"]
      else if subStr "button" prompt_lower then [Action.click "button"]
      else []
    else []
  let typ : List Action :=
    if ["type", "enter", "fill"].any (fun w => subStr w prompt_lower) then
      [Action.typeText "test@example.com"]
    else []
  let scr : List Action :=
    if subStr "screenshot" prompt_lower then [Action.screenshot] else []
  let actions := nav ++ clk ++ typ ++ scr
  if actions.isEmpty ∧ urls.isSome then [Action.screenshot] else actions

/-- Recorded step sequence of `TestExecutor._execute_ui_test` for the
actions parsed from the prompt (the trailing final-screenshot step is
appended after this loop). -/
def ui_loop_steps (page : PageT) (prompt : String) : List StepResult :=
  runActionLoop (execute_action page) (parse_actions_from_prompt prompt)

end TestExecutor

/-! ## Enhanced test executor
(services/enhanced_test_executor.py, class EnhancedTestExecutor) -/

namespace Enhanced

/-- Oracle for the browser session of
`EnhancedTestExecutor._execute_ui_test` / `_execute_action`: launch,
context and page creation, the per-operation outcomes, and the two closes
run by the finally block. An `Except.error` is a raised exception. -/
structure PageE where
  launch : Except String Unit
  newContext : Except String Unit
  newPage : Except String Unit
  goto : String → Except String Unit
  waitAfterNav : Except String Unit
  navShot : Except String String
  actShot : Except String String
  finalShot : Except String String
  closeCtx : Except String Unit
  closeBrowser : Except String Unit

/-- Method `_execute_action` (lines 251-311): only navigate and
screenshot are handled; every other action kind falls off the if/elif
chain and returns Python None, modelled as `none`. The second component
is the list of lines the call appends to the shared script buffer. -/
def execute_action (page : PageE) : Action → Option StepResult × List String
  | Action.navigate url =>
    let lines := [s!"  // Navigate to {url}",
                  s!"  await page.goto(\x27{url}\x27);",
                  "  await page.waitForLoadState(\x27networkidle\x27);"]
    match page.goto url with
    | Except.error e =>
      (some { action := "navigate", status := SStatus.failed, screenshot := none,
              logs := [s!"Error executing navigate: {e}"] }, lines)
    | Except.ok _ =>
      match page.waitAfterNav with
      | Except.error e =>
        (some { action := "navigate", status := SStatus.failed, screenshot := none,
                logs := [s!"Error executing navigate: {e}"] }, lines)
      | Except.ok _ =>
        match page.navShot with
        | Except.ok b64 =>
          (some { action := s!"navigate to {url}", status := SStatus.success,
                  screenshot := some b64,
                  logs := [s!"Navigated to {url}", "Screenshot captured successfully"] },
           lines)
        | Except.error e =>
          (some { action := s!"navigate to {url}", status := SStatus.success,
                  screenshot := none,
                  logs := [s!"Navigated to {url}", s!"Screenshot failed: {e}"] },
           lines)
  | Action.screenshot =>
    let lines := ["  // Take screenshot",
                  "  await page.screenshot(\x7b path: \x27screenshot.png\x27, fullPage: true \x7d);"]
    match page.actShot with
    | Except.ok b64 =>
      (some { action := "screenshot", status := SStatus.success,
              screenshot := some b64, logs := ["Screenshot captured"] }, lines)
    | Except.error e =>
      (some { action := "screenshot", status := SStatus.failed,
              screenshot := none, logs := [s!"Screenshot failed: {e}"] }, lines)
  | _ => (none, [])

/-- URL extraction of `_parse_actions_from_prompt` (lines 318-328): the
absolute-URL regex, else the on/at/from/of domain fallback. -/
def extract_urls (prompt : String) : Option String :=
  match findUrlFrom prompt.toList with
  | some u => some (String.mk u)
  | none =>
    match domainFrom ["on".toList, "at".toList, "from".toList, "of".toList]
        prompt.toList with
    | some d => some ("https://" ++ String.mk d)
    | none => none

/-- Method `_parse_actions_from_prompt` (lines 313-345): a URL gives a
navigate action, the word screenshot gives a screenshot action, and a
URL with no other action would default to a single screenshot. -/
def parse_actions_from_prompt (prompt : String) : List Action :=
  let prompt_lower := lowerStr prompt
  let urls : Option String := extract_urls prompt
  let nav : List Action :=
    match urls with
    | some url => [Action.navigate url]
    | none => []
  let scr : List Action :=
    if subStr "screenshot" prompt_lower then [Action.screenshot] else []
  let actions := nav ++ scr
  if actions.isEmpty ∧ urls.isSome then [Action.screenshot] else actions

/-- Action loop of `_execute_ui_test` (lines 124-129) with the script
buffer threaded through: on a None step result the Python subscript
`step_result['status']` raises, modelled as an error (unreachable for
the actions `parse_actions_from_prompt` produces). -/
def uiLoop (page : PageE) : List Action → Except String (List StepResult × List String)
  | [] => Except.ok ([], [])
  | a :: rest =>
    match execute_action page a with
    | (some s, ls) =>
      if s.status = SStatus.success then
        match uiLoop page rest with
        | Except.ok (ss, ls2) => Except.ok (s :: ss, ls ++ ls2)
        | Except.error e => Except.error e
      else Except.ok ([s], ls)
    | (none, _) => Except.error "TypeError: NoneType object is not subscriptable"

/-- Script header of `_execute_ui_test`. -/
def ui_script_header : List String :=
  ["import \x7b test, expect \x7d from \x27@playwright/test\x27;",
   "",
   "test(\x27Generated UI Test\x27, async (\x7b page \x7d) => \x7b"]

/-- Trailing part of `_execute_ui_test` (lines 131-169): always attempt
the full-page final screenshot and append its step — a success step with
the image and two more script lines, or a failed step when the capture
raised (that exception is caught) — then close the script and assemble
the result dictionary; overall status is completed exactly when every
step, the final-screenshot step included, succeeded. -/
def assemble_ui_result (loopSteps : List StepResult) (loopLines : List String)
    (finalShot : Except String String) : TestResultR :=
  let (finalStep, finalLines) :=
    match finalShot with
    | Except.ok b64 =>
      ({ action := "final_screenshot", status := SStatus.success,
         screenshot := some b64, logs := ["Final screenshot captured"] },
       ["  // Take final screenshot",
        "  await page.screenshot(\x7b path: \x27final-screenshot.png\x27, fullPage: true \x7d);"])
    | Except.error e =>
      ({ action := "final_screenshot", status := SStatus.failed,
         screenshot := none,
         logs := [s!"Failed to capture final screenshot: {e}"] }, [])
  let steps := loopSteps ++ [finalStep]
  let lines := ui_script_header ++ (loopLines ++ finalLines) ++ ["\x7d);"]
  let succ := steps.all (fun s => s.status == SStatus.success)
  { testId := "", status := if succ then TStatus.completed else TStatus.failed,
    success := succ, steps := steps,
    generatedScript := joinLines lines, error := none }

/-- Method `_execute_ui_test` (lines 89-169): launch browser, context and
page; run the action loop; assemble the result with the trailing final
screenshot; the finally block closes context then browser on every path
(a close exception replaces the body's outcome, and a body exception is
re-raised after a clean close). The browser-engine choice from `options`
only selects which launch call is made and is absorbed into the launch
oracle; the final-screenshot attempt never raises, so its oracle outcome
is consumed by the assembly. -/
def execute_ui_test (page : PageE) (req : TestRequest) : Except String TestResultR :=
  match page.launch with
  | Except.error e => Except.error e
  | Except.ok _ =>
  match page.newContext with
  | Except.error e => Except.error e
  | Except.ok _ =>
  match page.newPage with
  | Except.error e => Except.error e
  | Except.ok _ =>
  match uiLoop page (parse_actions_from_prompt req.prompt) with
  | Except.error e =>
    match page.closeCtx with
    | Except.error e2 => Except.error e2
    | Except.ok _ =>
      match page.closeBrowser with
      | Except.error e2 => Except.error e2
      | Except.ok _ => Except.error e
  | Except.ok (loopSteps, loopLines) =>
    match page.closeCtx with
    | Except.error e2 => Except.error e2
    | Except.ok _ =>
      match page.closeBrowser with
      | Except.error e2 => Except.error e2
      | Except.ok _ =>
        Except.ok (assemble_ui_result loopSteps loopLines page.finalShot)

/-- Method `_execute_mixed_test` (lines 247-249): delegates to the UI
path. -/
def execute_mixed_test (page : PageE) (req : TestRequest) : Except String TestResultR :=
  execute_ui_test page req

/-- Parsed API details (`_parse_api_from_prompt` return dictionary; its
headers are the constant Content-Type entry and `data` is always None). -/
structure ApiDetails where
  method : String
  url : String
deriving DecidableEq, Repr

/-- Method `_parse_api_from_prompt` (lines 347-376). -/
def parse_api_from_prompt (prompt : String) : ApiDetails :=
  let url : String :=
    match findUrlFrom prompt.toList with
    | some u => String.mk u
    | none =>
      match findEndpointFrom prompt.toList with
      | some ep => "https://api.example.com" ++ String.mk ep
      | none => "https://api.example.com/test"
  let pl := lowerStr prompt
  let method :=
    if subStr "post" pl then "POST"
    else if subStr "put" pl then "PUT"
    else if subStr "delete" pl then "DELETE"
    else "GET"
  { method := method, url := url }

/-- Oracle for one `requests.request` call: status code, the elapsed
seconds already formatted to two decimals, the resolved content-type
header, the pretty-printed JSON body when `response.json()` succeeds,
and the raw text body. -/
structure HttpResp where
  statusCode : Nat
  elapsedStr : String
  contentType : String
  jsonBody : Option String
  textBody : String
deriving DecidableEq, Repr

/-- Script assertion line appended before the request is issued. -/
def api_assert_line : String := "  expect(response.status()).toBeLessThan(400);"

/-- Script header of `_execute_api_test`. -/
def api_script_header : List String :=
  ["import \x7b test, expect \x7d from \x27@playwright/test\x27;",
   "",
   "test(\x27Generated API Test\x27, async (\x7b request \x7d) => \x7b"]

/-- Method `_execute_api_test` (lines 171-245): one request, one step;
the step succeeds exactly when the request returned with a status code
below 400; the request lines including the below-400 assertion are
appended to the script before the request is made, so they appear in the
generated script on both the normal and the exception path. -/
def execute_api_test (prompt : String) (resp : Except String HttpResp) : TestResultR :=
  let details := parse_api_from_prompt prompt
  let m := details.method.toLower
  let u := details.url
  let preLines : List String :=
    [s!"  // Make {details.method} request to {u}",
     s!"  const response = await request.{m}(\x27{u}\x27);",
     api_assert_line]
  match resp with
  | Except.ok r =>
    let extraLog :=
      match r.jsonBody with
      | some j => s!"JSON Response: {takeStr 500 j}..."
      | none => s!"Text Response: {takeStr 500 r.textBody}..."
    let extraLines : List String :=
      match r.jsonBody with
      | some _ => ["  const jsonData = await response.json();",
                   "  expect(jsonData).toBeDefined();"]
      | none => ["  const textData = await response.text();",
                 "  expect(textData).toBeDefined();"]
    let step : StepResult :=
      { action := s!"{details.method} {u}",
        status := if r.statusCode < 400 then SStatus.success else SStatus.failed,
        screenshot := none,
        logs := [s!"Status Code: {r.statusCode}",
                 s!"Response Time: {r.elapsedStr}s",
                 s!"Content Type: {r.contentType}",
                 extraLog] }
    let steps := [step]
    let lines := api_script_header ++ preLines ++ extraLines ++ ["\x7d);"]
    let succ := steps.all (fun s => s.status == SStatus.success)
    { testId := "", status := if succ then TStatus.completed else TStatus.failed,
      success := succ, steps := steps,
      generatedScript := joinLines lines, error := none }
  | Except.error e =>
    let step : StepResult :=
      { action := "api_request", status := SStatus.failed, screenshot := none,
        logs := [s!"Error: {e}"] }
    let steps := [step]
    let lines := api_script_header ++ preLines ++ [s!"  // Error occurred: {e}", "\x7d);"]
    let succ := steps.all (fun s => s.status == SStatus.success)
    { testId := "", status := if succ then TStatus.completed else TStatus.failed,
      success := succ, steps := steps,
      generatedScript := joinLines lines, error := none }

/-- Method `_generate_error_script` (lines 378-399). -/
def generate_error_script (req : TestRequest) (error : String) : String :=
  if req.testType = "api" then
    "import \x7b test, expect \x7d from \x27@playwright/test\x27;\n\ntest(\x27Failed API Test\x27, async (\x7b request \x7d) => \x7b\n  // This test failed with error: " ++ error
      ++ "\n  // Original prompt: " ++ req.prompt
      ++ "\n  \n  // TODO: Fix the error and retry\n\x7d);"
  else
    "import \x7b test, expect \x7d from \x27@playwright/test\x27;\n\ntest(\x27Failed UI Test\x27, async (\x7b page \x7d) => \x7b\n  // This test failed with error: " ++ error
      ++ "\n  // Original prompt: " ++ req.prompt
      ++ "\n  \n  // TODO: Fix the error and retry\n\x7d);"

/-- Per-test-type dispatch inside `_execute_test_async` (lines 60-68). -/
def run_branch (page : PageE) (api : Except String HttpResp) (req : TestRequest) :
    Except String TestResultR :=
  if req.testType = "api" then Except.ok (execute_api_test req.prompt api)
  else if req.testType = "ui" then execute_ui_test page req
  else if req.testType = "mixed" then execute_mixed_test page req
  else execute_ui_test page req

/-- Method `_execute_test_async` (lines 54-87): the catch-all converts
any exception of the branch into a failed result with the error string,
an empty step list and the templated error script; no exception leaves
this function. `execute_test` (line 32-34), the synchronous entry point,
runs exactly this. -/
def execute_test_async_impl (page : PageE) (api : Except String HttpResp)
    (req : TestRequest) : TestResultR :=
  match run_branch page api req with
  | Except.ok result => { result with testId := req.testId }
  | Except.error e =>
    { testId := req.testId, status := TStatus.failed, success := false, steps := [],
      generatedScript := generate_error_script req e, error := some e }

/-- First store write of `_run_async_test`: the assignment to
`self.test_results[test_id]` — line 41 on a normal thread outcome, line
45 on the except path, where the caught exception is recorded as a
failed dictionary (which carries no steps). -/
def write_result (store : Store) (req : TestRequest)
    (outcome : Except String TestResultR) : Store :=
  match outcome with
  | Except.ok result =>
    { store with testResults := (req.testId, result) :: store.testResults }
  | Except.error e =>
    { store with testResults := (req.testId,
        { testId := req.testId, status := TStatus.failed, success := false,
          steps := [], generatedScript := generate_error_script req e,
          error := some e }) :: store.testResults }

/-- Second store write of `_run_async_test`: the assignment to
`self.test_status[test_id]` — line 42 (`result['status']`) on a normal
thread outcome, line 52 (`'failed'`) on the except path. It executes
strictly after `write_result` in the same worker thread. -/
def write_status (store : Store) (req : TestRequest)
    (outcome : Except String TestResultR) : Store :=
  match outcome with
  | Except.ok result =>
    { store with testStatus := (req.testId, result.status) :: store.testStatus }
  | Except.error _ =>
    { store with testStatus := (req.testId, TStatus.failed) :: store.testStatus }

/-- Store effect of a whole `_run_async_test` run (lines 36-52): the
result write followed by the status write. The two are separate
unsynchronized dict assignments; readers in other threads can observe
the store between them. -/
def run_async_test (store : Store) (req : TestRequest)
    (outcome : Except String TestResultR) : Store :=
  write_status (write_result store req outcome) req outcome

/-- Caller-side part of `execute_test_async` (lines 19-30): the submit
path records status running for the new id and starts the worker
thread. No pending status is ever written. -/
def execute_test_async_submit (store : Store) (req : TestRequest) : Store :=
  { store with testStatus := (req.testId, TStatus.running) :: store.testStatus }

/-- Method `get_test_status` (lines 401-406), in state-passing form: a
pure read returning the stored status or the not_found sentinel. -/
def get_test_status (store : Store) (test_id : String) : StatusView × Store :=
  ({ testId := test_id,
     status := (store.testStatus.lookup test_id).getD TStatus.notFound }, store)

/-- Sentinel dictionary of `get_test_results` for an unknown id. -/
def not_found_result (test_id : String) : TestResultR :=
  { testId := test_id, status := TStatus.notFound, success := false, steps := [],
    generatedScript := "", error := some "Test results not found" }

/-- Method `get_test_results` (lines 408-414), in state-passing form. -/
def get_test_results (store : Store) (test_id : String) : TestResultR × Store :=
  ((store.testResults.lookup test_id).getD (not_found_result test_id), store)

/-- Reachable store states at the granularity of individual dict
assignments: submissions with fresh ids (uuid4 never repeats an id held
by the store), and the worker thread's two writes of `_run_async_test`
as two separate transitions — so the intermediate state after the
result write and before the status write is reachable and observable by
the status/result routes. The guard on the status-write transitions
reflects program order within one thread: `_run_async_test` assigns
`test_status[test_id]` only after its own `test_results[test_id]`
assignment, and entries are never removed, so at the status write a
result for the id is present. -/
inductive Reachable : Store → Prop
  | empty : Reachable { testStatus := [], testResults := [] }
  | submit (s : Store) (req : TestRequest) :
      Reachable s →
      s.testStatus.lookup req.testId = none →
      s.testResults.lookup req.testId = none →
      Reachable (execute_test_async_submit s req)
  | workerResultOk (s : Store) (req : TestRequest) (page : PageE)
      (api : Except String HttpResp) :
      Reachable s →
      Reachable (write_result s req (Except.ok (execute_test_async_impl page api req)))
  | workerResultErr (s : Store) (req : TestRequest) (e : String) :
      Reachable s →
      Reachable (write_result s req (Except.error e))
  | workerStatusOk (s : Store) (req : TestRequest) (page : PageE)
      (api : Except String HttpResp) :
      Reachable s →
      (s.testResults.lookup req.testId).isSome = true →
      Reachable (write_status s req (Except.ok (execute_test_async_impl page api req)))
  | workerStatusErr (s : Store) (req : TestRequest) (e : String) :
      Reachable s →
      (s.testResults.lookup req.testId).isSome = true →
      Reachable (write_status s req (Except.error e))

end Enhanced

/-! ## Chat route (routes/chat.py) -/

namespace ChatRoute

/-- Response JSON of the chat endpoint: the fields that distinguish the
two branches of `handle_chat_message` (type, content, and the test_id /
status metadata present only on the test branch). -/
structure ChatReply where
  id : String
  rtype : String
  content : String
  metaTestId : Option String
  metaStatus : Option String
deriving DecidableEq, Repr

/-- Route `handle_chat_message` (chat.py lines 12-55): interpret the
message; on a test request build the test_request dictionary, start
asynchronous execution (the submit-side store write) and acknowledge;
otherwise return the conversational content and touch nothing. -/
def handle_chat_message (userMessage messageId testId : String) (store : Store) :
    ChatReply × Store :=
  match MCPServer.process_message userMessage with
  | MCPServer.Response.testRequest tt url _ opts =>
    ({ id := messageId, rtype := "assistant",
       content := "I\x27ll help you test that. Starting test execution...",
       metaTestId := some testId, metaStatus := some "pending" },
     Enhanced.execute_test_async_submit store
       { testId := testId, prompt := userMessage, testType := tt,
         targetUrl := url, options := opts })
  | MCPServer.Response.conversational c =>
    ({ id := messageId, rtype := "assistant", content := c,
       metaTestId := none, metaStatus := none },
     store)

end ChatRoute

/-! ## Helper lemmas -/

theorem isPrefixOf_append_self (n t : List Char) : n.isPrefixOf (n ++ t) = true := by
  induction n with
  | nil => cases t <;> rfl
  | cons c cs ih =>
    show (c == c && cs.isPrefixOf (cs ++ t)) = true
    simp [ih]

theorem subList_self_append (n t : List Char) : subList n (n ++ t) = true := by
  cases n with
  | nil => cases t <;> simp [subList]
  | cons c cs => simp [subList, isPrefixOf_append_self]

theorem subList_cons_of (n : List Char) (c : Char) (h : List Char)
    (hs : subList n h = true) : subList n (c :: h) = true := by
  simp [subList, hs]

theorem subList_append_left_of (n x h : List Char) (hs : subList n h = true) :
    subList n (x ++ h) = true := by
  induction x with
  | nil => exact hs
  | cons c cs ih => exact subList_cons_of n c (cs ++ h) ih

theorem subList_joinL_of_mem (a : List Char) (ls : List (List Char)) (h : a ∈ ls) :
    subList a (joinL ls) = true := by
  induction ls with
  | nil => cases h
  | cons x rest ih =>
    rcases List.mem_cons.mp h with h | h
    · subst h
      cases rest with
      | nil =>
        have := subList_self_append a []
        simpa [joinL] using this
      | cons y ys => simpa [joinL] using subList_self_append a ('\n' :: joinL (y :: ys))
    · cases rest with
      | nil => cases h
      | cons y ys =>
        have hij := ih h
        simpa [joinL] using
          subList_append_left_of a x ('\n' :: joinL (y :: ys))
            (subList_cons_of a '\n' (joinL (y :: ys)) hij)

theorem subStr_joinLines_of_mem (a : String) (ls : List String) (h : a ∈ ls) :
    subStr a (joinLines ls) = true := by
  unfold subStr joinLines
  exact subList_joinL_of_mem a.toList (ls.map String.toList)
    (List.mem_map_of_mem String.toList h)

theorem getLast?_append_single {α : Type} (l : List α) (a : α) :
    (l ++ [a]).getLast? = some a := by
  induction l with
  | nil => rfl
  | cons x xs ih =>
    rw [List.cons_append]
    cases hx : xs ++ [a] with
    | nil => simp at hx
    | cons y ys =>
      show (y :: ys).getLast? = some a
      rw [← hx, ih]

/-! ## Claim theorems -/

/-- C2: for every Verify action with condition element_present, the
TestExecutor action executor returns a StepResult with status success,
whatever the page oracle says about the success-indicator selectors. -/
theorem c2_verify_element_present_success (page : TestExecutor.PageT) :
    (TestExecutor.execute_action page (Action.verify "element_present")).status
      = SStatus.success := by
  rfl

/-- C9: for an id absent from both store maps, get_test_status returns
the not_found sentinel status, get_test_results returns the not_found
sentinel result, and neither lookup changes the store (both are total
functions, so neither can raise). -/
theorem c9_unknown_id_sentinels (store : Store) (id : String)
    (h1 : store.testStatus.lookup id = none)
    (h2 : store.testResults.lookup id = none) :
    (Enhanced.get_test_status store id).1.status = TStatus.notFound
    ∧ (Enhanced.get_test_status store id).2 = store
    ∧ (Enhanced.get_test_results store id).1 = Enhanced.not_found_result id
    ∧ (Enhanced.get_test_results store id).2 = store := by
  refine ⟨?_, rfl, ?_, rfl⟩
  · simp [Enhanced.get_test_status, h1]
  · simp [Enhanced.get_test_results, h2]

/-- Concrete store used by the C9 witness. -/
def demoStore : Store :=
  { testStatus := [("11111111-2222-3333-4444-555555555555", TStatus.running)],
    testResults := [] }

theorem c9_witness :
    (Enhanced.get_test_status demoStore "nonexistent").1.status = TStatus.notFound
    ∧ (Enhanced.get_test_status demoStore "nonexistent").2 = demoStore
    ∧ (Enhanced.get_test_results demoStore "nonexistent").1
        = Enhanced.not_found_result "nonexistent"
    ∧ (Enhanced.get_test_results demoStore "nonexistent").2 = demoStore :=
  c9_unknown_id_sentinels demoStore "nonexistent" (by decide) (by decide)

/-- C6: a prompt whose lower-cased text contains none of the trigger
keywords is answered conversationally: process_message returns the
conversational reply (so no TestIntent is produced), and the chat route
neither starts a test nor touches the store (no job is created). -/
theorem c6_no_keyword_conversational (msg mid tid : String) (store : Store)
    (h : (MCPServer.test_keywords.all
        (fun k => !(subStr k (lowerStr msg)))) = true) :
    MCPServer.process_message msg
        = MCPServer.Response.conversational
            (MCPServer.generate_conversational_response msg)
    ∧ (ChatRoute.handle_chat_message msg mid tid store).2 = store
    ∧ (ChatRoute.handle_chat_message msg mid tid store).1.metaTestId = none := by
  have hreq : MCPServer.is_test_request (lowerStr msg) = false := by
    unfold MCPServer.is_test_request
    cases hq : MCPServer.test_keywords.any (fun k => subStr k (lowerStr msg)) with
    | false => rfl
    | true =>
      rw [List.any_eq_true] at hq
      obtain ⟨k, hk, hsub⟩ := hq
      rw [List.all_eq_true] at h
      have := h k hk
      simp [hsub] at this
  have hpm : MCPServer.process_message msg
      = MCPServer.Response.conversational
          (MCPServer.generate_conversational_response msg) := by
    simp [MCPServer.process_message, hreq]
  exact ⟨hpm, by simp [ChatRoute.handle_chat_message, hpm],
    by simp [ChatRoute.handle_chat_message, hpm]⟩

theorem c6_witness :
    MCPServer.process_message "hello"
        = MCPServer.Response.conversational
            (MCPServer.generate_conversational_response "hello")
    ∧ (ChatRoute.handle_chat_message "hello" "m1" "t1" demoStore).2 = demoStore
    ∧ (ChatRoute.handle_chat_message "hello" "m1" "t1" demoStore).1.metaTestId = none :=
  c6_no_keyword_conversational "hello" "m1" "t1" demoStore (by decide)

/-- C10: the executor wired into the HTTP routes parses only navigate
and screenshot actions from a prompt (click, type and verify trigger
words produce nothing), and its action executor returns a step result
only for those two kinds — every other kind falls off the if/elif chain
and returns Python None. -/
theorem c10_enhanced_action_vocabulary :
    (∀ (p : String) (a : Action), a ∈ Enhanced.parse_actions_from_prompt p →
        (∃ u, a = Action.navigate u) ∨ a = Action.screenshot)
    ∧ (∀ (page : Enhanced.PageE) (t : String),
        (Enhanced.execute_action page (Action.click t)).1 = none)
    ∧ (∀ (page : Enhanced.PageE) (t : String),
        (Enhanced.execute_action page (Action.typeText t)).1 = none)
    ∧ (∀ (page : Enhanced.PageE) (c : String),
        (Enhanced.execute_action page (Action.verify c)).1 = none)
    ∧ (∀ (page : Enhanced.PageE) (u : String),
        (Enhanced.execute_action page (Action.navigate u)).1.isSome = true)
    ∧ (∀ (page : Enhanced.PageE),
        (Enhanced.execute_action page Action.screenshot).1.isSome = true) := by
  refine ⟨?_, fun _ _ => rfl, fun _ _ => rfl, fun _ _ => rfl, ?_, ?_⟩
  · intro p a ha
    rcases hu : Enhanced.extract_urls p with _ | u <;>
      by_cases hscr : subStr "screenshot" (lowerStr p) = true <;>
      simp [Enhanced.parse_actions_from_prompt, hu, hscr] at ha <;>
      tauto
  · intro page u
    simp only [Enhanced.execute_action]
    rcases hg : page.goto u with e | _
    · simp [hg]
    · rcases hw : page.waitAfterNav with e | _
      · simp [hg, hw]
      · rcases hn : page.navShot with e | b <;> simp [hg, hw, hn]
  · intro page
    simp only [Enhanced.execute_action]
    rcases hs : page.actShot with e | b <;> simp [hs]

/-- Oracle instance whose operations all succeed, used by concrete
witnesses. -/
def okPageE : Enhanced.PageE :=
  { launch := Except.ok (), newContext := Except.ok (), newPage := Except.ok (),
    goto := fun _ => Except.ok (), waitAfterNav := Except.ok (),
    navShot := Except.ok "img1", actShot := Except.ok "img2",
    finalShot := Except.ok "img3",
    closeCtx := Except.ok (), closeBrowser := Except.ok () }

/-- Test request used by concrete witnesses. -/
def uiReq : TestRequest :=
  { testId := "t-001", prompt := "screenshot https://x.io", testType := "ui",
    targetUrl := some "https://x.io",
    options := { browser := "chromium", headless := true, timeout := 30000 } }

theorem c10_witness :
    ((∃ u, Action.screenshot = Action.navigate u) ∨ Action.screenshot = Action.screenshot)
    ∧ (Enhanced.execute_action okPageE (Action.click "button")).1 = none
    ∧ (Enhanced.execute_action okPageE (Action.verify "page_loaded")).1 = none
    ∧ (Enhanced.execute_action okPageE (Action.navigate "https://x.io")).1.isSome = true :=
  ⟨c10_enhanced_action_vocabulary.1 "screenshot https://x.io" Action.screenshot (by decide),
   c10_enhanced_action_vocabulary.2.1 okPageE "button",
   c10_enhanced_action_vocabulary.2.2.2.1 okPageE "page_loaded",
   c10_enhanced_action_vocabulary.2.2.2.2.1 okPageE "https://x.io"⟩

/-- Priority rank of an action kind in the order the `_parse_actions`
blocks are appended. -/
def kindRank : Action → Nat
  | Action.navigate _ => 0
  | Action.click _ => 1
  | Action.typeText _ => 2
  | Action.verify _ => 3
  | Action.screenshot => 4

theorem navigate_block_rank (m : String) :
    ∀ a ∈ MCPServer.navigate_block m, kindRank a = 0 := by
  intro a ha
  unfold MCPServer.navigate_block at ha
  split at ha
  · split at ha
    · simp at ha
      subst ha
      rfl
    · simp at ha
  · simp at ha

theorem click_block_rank (m : String) :
    ∀ a ∈ MCPServer.click_block m, kindRank a = 1 := by
  intro a ha
  unfold MCPServer.click_block at ha
  split at ha
  · rw [List.mem_map] at ha
    obtain ⟨t, _, hat⟩ := ha
    subst hat
    rfl
  · simp at ha

theorem type_block_rank (m : String) :
    ∀ a ∈ MCPServer.type_block m, kindRank a = 2 := by
  intro a ha
  unfold MCPServer.type_block at ha
  split at ha
  · simp at ha
    subst ha
    rfl
  · simp at ha

theorem verify_block_rank (m : String) :
    ∀ a ∈ MCPServer.verify_block m, kindRank a = 3 := by
  intro a ha
  unfold MCPServer.verify_block at ha
  split at ha
  · simp at ha
    subst ha
    rfl
  · simp at ha

theorem screenshot_block_rank (m : String) :
    ∀ a ∈ MCPServer.screenshot_block m, kindRank a = 4 := by
  intro a ha
  unfold MCPServer.screenshot_block at ha
  split at ha
  · simp at ha
    subst ha
    rfl
  · simp at ha

theorem pairwise_rank_of_const {l : List Action} {r : Nat}
    (h : ∀ a ∈ l, kindRank a = r) :
    l.Pairwise (fun a b => kindRank a ≤ kindRank b) := by
  induction l with
  | nil => exact List.Pairwise.nil
  | cons x xs ih =>
    refine List.Pairwise.cons ?_ (ih (fun a ha => h a (List.mem_cons_of_mem x ha)))
    intro b hb
    rw [h x (List.mem_cons_self x xs), h b (List.mem_cons_of_mem x hb)]

theorem pairwise_rank_append {l₁ l₂ : List Action} {r : Nat}
    (h₁ : ∀ a ∈ l₁, kindRank a = r)
    (h₂ : ∀ b ∈ l₂, r ≤ kindRank b)
    (hp : l₂.Pairwise (fun a b => kindRank a ≤ kindRank b)) :
    (l₁ ++ l₂).Pairwise (fun a b => kindRank a ≤ kindRank b) := by
  refine List.pairwise_append.mpr ⟨pairwise_rank_of_const h₁, hp, ?_⟩
  intro a ha b hb
  rw [h₁ a ha]
  exact h₂ b hb

/-- C7: the interpreter appends extracted actions in the fixed kind
order navigate, click, type, verify, screenshot for every prompt (the
rank sequence of the parsed actions is monotone), and the specific
prompt of the spec parses to exactly Navigate then Screenshot. -/
theorem c7_fixed_priority_order :
    (∀ m : String,
        (MCPServer.parse_actions m).Pairwise (fun a b => kindRank a ≤ kindRank b))
    ∧ MCPServer.parse_actions "go to https://example.com and take a screenshot"
        = [Action.navigate "https://example.com", Action.screenshot] := by
  constructor
  · intro m
    unfold MCPServer.parse_actions
    simp only [List.append_assoc]
    refine pairwise_rank_append (navigate_block_rank m) ?_ ?_
    · intro b hb
      exact Nat.zero_le _
    · refine pairwise_rank_append (click_block_rank m) ?_ ?_
      · intro b hb
        rcases List.mem_append.mp hb with h | h
        · rw [type_block_rank m b h]
          omega
        · rcases List.mem_append.mp h with h2 | h2
          · rw [verify_block_rank m b h2]
            omega
          · rw [screenshot_block_rank m b h2]
            omega
      · refine pairwise_rank_append (type_block_rank m) ?_ ?_
        · intro b hb
          rcases List.mem_append.mp hb with h | h
          · rw [verify_block_rank m b h]
            omega
          · rw [screenshot_block_rank m b h]
            omega
        · refine pairwise_rank_append (verify_block_rank m) ?_
            (pairwise_rank_of_const (screenshot_block_rank m))
          intro b hb
          rw [screenshot_block_rank m b hb]
          omega
  · decide

theorem runActionLoop_cons_ne_nil (exec : Action → StepResult) (a : Action)
    (rest : List Action) : runActionLoop exec (a :: rest) ≠ [] := by
  by_cases h : (exec a).status = SStatus.success <;> simp [runActionLoop, h]

/-- Fail-fast loop specification: the recorded steps are the executions
of a prefix of the action list, every step before the last succeeded,
and when the loop stopped before exhausting the actions its last step
failed. -/
theorem runActionLoop_spec (exec : Action → StepResult) (acts : List Action) :
    runActionLoop exec acts
        = (acts.take (runActionLoop exec acts).length).map exec
    ∧ (∀ s ∈ (runActionLoop exec acts).dropLast, s.status = SStatus.success)
    ∧ ((runActionLoop exec acts).length < acts.length →
        ∃ s, (runActionLoop exec acts).getLast? = some s
          ∧ s.status = SStatus.failed) := by
  induction acts with
  | nil => refine ⟨rfl, ?_, ?_⟩ <;> simp [runActionLoop]
  | cons a rest ih =>
    obtain ⟨ih1, ih2, ih3⟩ := ih
    by_cases hs : (exec a).status = SStatus.success
    · have hloop : runActionLoop exec (a :: rest)
          = exec a :: runActionLoop exec rest := by
        simp only [runActionLoop]
        rw [if_pos hs]
      refine ⟨?_, ?_, ?_⟩
      · rw [hloop, List.length_cons, List.take_succ_cons, List.map_cons, ← ih1]
      · rw [hloop]
        intro s hsmem
        cases hrl : runActionLoop exec rest with
        | nil =>
          rw [hrl] at hsmem
          simp at hsmem
        | cons y ys =>
          rw [hrl] at hsmem
          have hdl : (exec a :: y :: ys).dropLast = exec a :: (y :: ys).dropLast := rfl
          rw [hdl] at hsmem
          rcases List.mem_cons.mp hsmem with h | h
          · subst h
            exact hs
          · exact ih2 s (by rw [hrl]; exact h)
      · rw [hloop, List.length_cons]
        intro hlen
        have hlt : (runActionLoop exec rest).length < rest.length := by
          simpa using hlen
        obtain ⟨s, hlast, hfail⟩ := ih3 hlt
        refine ⟨s, ?_, hfail⟩
        cases hrl : runActionLoop exec rest with
        | nil =>
          rw [hrl] at hlt
          cases rest with
          | nil => simp at hlt
          | cons b bs => exact absurd hrl (runActionLoop_cons_ne_nil exec b bs)
        | cons y ys =>
          rw [hrl] at hlast
          show (y :: ys).getLast? = some s
          exact hlast
    · have hloop : runActionLoop exec (a :: rest) = [exec a] := by
        simp only [runActionLoop]
        rw [if_neg hs]
      have hfail : (exec a).status = SStatus.failed := by
        cases h : (exec a).status
        · exact absurd h hs
        · rfl
      refine ⟨?_, ?_, ?_⟩
      · rw [hloop]
        rfl
      · rw [hloop]
        intro s hsmem
        simp at hsmem
      · rw [hloop]
        intro _
        exact ⟨exec a, rfl, hfail⟩

/-- Placeholder step used only to strip the Option layer off the
enhanced executor's action results where they are known to be present. -/
def dummyStep : StepResult :=
  { action := "", status := SStatus.failed, screenshot := none, logs := [] }

/-- Action shape produced by the enhanced parser, shared by the C10 and
C4 developments. -/
theorem enh_parse_kinds (p : String) (a : Action)
    (ha : a ∈ Enhanced.parse_actions_from_prompt p) :
    (∃ u, a = Action.navigate u) ∨ a = Action.screenshot := by
  rcases hu : Enhanced.extract_urls p with _ | u <;>
    by_cases hscr : subStr "screenshot" (lowerStr p) = true <;>
    simp [Enhanced.parse_actions_from_prompt, hu, hscr] at ha <;>
    tauto

/-- The enhanced action executor returns a step for navigate and
screenshot actions. -/
theorem enh_exec_isSome (page : Enhanced.PageE) (a : Action)
    (h : (∃ u, a = Action.navigate u) ∨ a = Action.screenshot) :
    ((Enhanced.execute_action page a).1).isSome = true := by
  rcases h with ⟨u, rfl⟩ | rfl
  · simp only [Enhanced.execute_action]
    rcases hg : page.goto u with e | _
    · simp [hg]
    · rcases hw : page.waitAfterNav with e | _
      · simp [hg, hw]
      · rcases hn : page.navShot with e | b <;> simp [hg, hw, hn]
  · simp only [Enhanced.execute_action]
    rcases hsh : page.actShot with e | b <;> simp [hsh]

/-- When every action yields a step, the enhanced loop agrees with the
shared fail-fast loop on the recorded step sequence. -/
theorem uiLoop_eq_runActionLoop (page : Enhanced.PageE) (acts : List Action)
    (h : ∀ a ∈ acts, ((Enhanced.execute_action page a).1).isSome = true) :
    ∃ lines, Enhanced.uiLoop page acts
      = Except.ok
          (runActionLoop (fun a => ((Enhanced.execute_action page a).1).getD dummyStep)
            acts,
           lines) := by
  induction acts with
  | nil => exact ⟨[], rfl⟩
  | cons a rest ih =>
    have ha := h a (List.mem_cons_self a rest)
    rcases he : Enhanced.execute_action page a with ⟨os, ls⟩
    cases os with
    | none => rw [he] at ha; simp at ha
    | some s =>
      have hexec : ((Enhanced.execute_action page a).1).getD dummyStep = s := by
        simp [he]
      obtain ⟨lines', hrest⟩ := ih (fun b hb => h b (List.mem_cons_of_mem a hb))
      by_cases hs : s.status = SStatus.success
      · refine ⟨ls ++ lines', ?_⟩
        simp only [Enhanced.uiLoop]
        rw [he]
        dsimp only
        rw [if_pos hs, hrest]
        have hrun : runActionLoop
            (fun a => ((Enhanced.execute_action page a).1).getD dummyStep) (a :: rest)
            = s :: runActionLoop
                (fun a => ((Enhanced.execute_action page a).1).getD dummyStep) rest := by
          simp only [runActionLoop]
          rw [hexec, if_pos hs]
        rw [hrun]
      · refine ⟨ls, ?_⟩
        simp only [Enhanced.uiLoop]
        rw [he]
        dsimp only
        rw [if_neg hs]
        have hrun : runActionLoop
            (fun a => ((Enhanced.execute_action page a).1).getD dummyStep) (a :: rest)
            = [s] := by
          simp only [runActionLoop]
          rw [hexec, if_neg hs]
        rw [hrun]

/-- C4: in both ui executors the step sequence recorded for the parsed
actions is the execution of a prefix of the action list; every step
before the last succeeded, and a stop before the last action means the
last recorded step failed. -/
theorem c4_steps_prefix_of_actions :
    (∀ (page : TestExecutor.PageT) (prompt : String),
        TestExecutor.ui_loop_steps page prompt
            = ((TestExecutor.parse_actions_from_prompt prompt).take
                (TestExecutor.ui_loop_steps page prompt).length).map
                  (TestExecutor.execute_action page)
        ∧ (∀ s ∈ (TestExecutor.ui_loop_steps page prompt).dropLast,
            s.status = SStatus.success)
        ∧ ((TestExecutor.ui_loop_steps page prompt).length
              < (TestExecutor.parse_actions_from_prompt prompt).length →
            ∃ s, (TestExecutor.ui_loop_steps page prompt).getLast? = some s
              ∧ s.status = SStatus.failed))
    ∧ (∀ (page : Enhanced.PageE) (prompt : String) (steps : List StepResult)
          (lines : List String),
        Enhanced.uiLoop page (Enhanced.parse_actions_from_prompt prompt)
            = Except.ok (steps, lines) →
        steps = ((Enhanced.parse_actions_from_prompt prompt).take steps.length).map
            (fun a => ((Enhanced.execute_action page a).1).getD dummyStep)
        ∧ (∀ s ∈ steps.dropLast, s.status = SStatus.success)
        ∧ (steps.length < (Enhanced.parse_actions_from_prompt prompt).length →
            ∃ s, steps.getLast? = some s ∧ s.status = SStatus.failed)) := by
  constructor
  · intro page prompt
    exact runActionLoop_spec (TestExecutor.execute_action page)
      (TestExecutor.parse_actions_from_prompt prompt)
  · intro page prompt steps lines h
    obtain ⟨lines', hloop⟩ := uiLoop_eq_runActionLoop page
      (Enhanced.parse_actions_from_prompt prompt)
      (fun a ha => enh_exec_isSome page a (enh_parse_kinds prompt a ha))
    rw [hloop] at h
    have hsteps : steps
        = runActionLoop (fun a => ((Enhanced.execute_action page a).1).getD dummyStep)
            (Enhanced.parse_actions_from_prompt prompt) := by
      simp only [Except.ok.injEq, Prod.mk.injEq] at h
      exact h.1.symm
    rw [hsteps]
    exact runActionLoop_spec _ _

/-- Page oracle whose navigation fails, so the TestExecutor loop stops
at the first step; used by the C4 witness. -/
def failPageT : TestExecutor.PageT :=
  { goto := fun _ => Except.error "net::ERR_CONNECTION_REFUSED",
    clickSel := fun _ => false, fillSel := fun _ => false,
    waitSel := fun _ => false, title := Except.ok "T",
    navShot := Except.ok "img", clickShot := Except.ok "img",
    actShot := Except.ok "img", waitT := Except.ok () }

theorem c4_witness :
    ∃ s, (TestExecutor.ui_loop_steps failPageT "screenshot https://x.io").getLast?
          = some s
      ∧ s.status = SStatus.failed :=
  (c4_steps_prefix_of_actions.1 failPageT "screenshot https://x.io").2.2 (by decide)

/-- Assembled ui results always end in the final-screenshot step, and
their status is completed exactly when every step succeeded. -/
theorem assemble_ui_result_props (ls : List StepResult) (ll : List String)
    (fs : Except String String) :
    ((Enhanced.assemble_ui_result ls ll fs).steps.getLast?.map (fun s => s.action)
        = some "final_screenshot")
    ∧ ((Enhanced.assemble_ui_result ls ll fs).status = TStatus.completed
        ↔ (Enhanced.assemble_ui_result ls ll fs).steps.all
            (fun s => s.status == SStatus.success) = true) := by
  cases fs with
  | ok b64 =>
    constructor
    · simp only [Enhanced.assemble_ui_result]
      rw [getLast?_append_single]
      rfl
    · simp only [Enhanced.assemble_ui_result]
      split <;> simp_all
  | error e =>
    constructor
    · simp only [Enhanced.assemble_ui_result]
      rw [getLast?_append_single]
      rfl
    · simp only [Enhanced.assemble_ui_result]
      split <;> simp_all

/-- A normal return of the ui runner is an assembled result. -/
theorem execute_ui_test_ok_eq (page : Enhanced.PageE) (req : TestRequest)
    (r : TestResultR) (h : Enhanced.execute_ui_test page req = Except.ok r) :
    ∃ ls ll, r = Enhanced.assemble_ui_result ls ll page.finalShot := by
  simp only [Enhanced.execute_ui_test] at h
  repeat' split at h
  all_goals first
    | (injection h with h; exact ⟨_, _, h.symm⟩)
    | injection h

/-- An assembled ui result's status is completed or failed. -/
theorem assemble_ui_result_status (ls : List StepResult) (ll : List String)
    (fs : Except String String) :
    (Enhanced.assemble_ui_result ls ll fs).status = TStatus.completed
    ∨ (Enhanced.assemble_ui_result ls ll fs).status = TStatus.failed := by
  cases fs <;> (simp only [Enhanced.assemble_ui_result]; split <;> simp)

/-- C1 counterexample: a run in which the navigation step and its
screenshot succeed and only the trailing final screenshot raises ends
with status failed — every step recorded for the parsed actions
succeeded, the appended final-screenshot step is the only failed one,
yet it flips the overall status away from completed, contradicting the
claim that its failure alone cannot do so. -/
theorem c1_counterexample :
    (Enhanced.execute_ui_test
        { okPageE with finalShot := Except.error "screenshot timeout" }
        uiReq).toOption.map (fun r => r.status) = some TStatus.failed
    ∧ (Enhanced.execute_ui_test
        { okPageE with finalShot := Except.error "screenshot timeout" }
        uiReq).toOption.map
          (fun r => r.steps.dropLast.all (fun s => s.status == SStatus.success))
        = some true
    ∧ (Enhanced.execute_ui_test
        { okPageE with finalShot := Except.error "screenshot timeout" }
        uiReq).toOption.map
          (fun r => r.steps.getLast?.map (fun s => (s.action, s.status)))
        = some (some ("final_screenshot", SStatus.failed)) := by
  refine ⟨?_, ?_, ?_⟩ <;> decide

/-- C1 as amended: on every normal return of the enhanced ui runner the
trailing final-screenshot step is attempted and recorded last regardless
of early stop, but its failure does count: the overall status is
completed exactly when every step, the final-screenshot step included,
succeeded. -/
theorem c1_final_screenshot_amended (page : Enhanced.PageE) (req : TestRequest)
    (r : TestResultR) (h : Enhanced.execute_ui_test page req = Except.ok r) :
    (r.steps.getLast?.map (fun s => s.action) = some "final_screenshot")
    ∧ (r.status = TStatus.completed
        ↔ r.steps.all (fun s => s.status == SStatus.success) = true) := by
  obtain ⟨ls, ll, rfl⟩ := execute_ui_test_ok_eq page req r h
  exact assemble_ui_result_props ls ll page.finalShot

/-- Result of a fully successful concrete run, used by the C1 witness. -/
def c1Result : TestResultR :=
  (Enhanced.execute_ui_test okPageE uiReq).toOption.getD
    (Enhanced.not_found_result "")

theorem c1_amended_witness :
    (c1Result.steps.getLast?.map (fun s => s.action) = some "final_screenshot")
    ∧ (c1Result.status = TStatus.completed
        ↔ c1Result.steps.all (fun s => s.status == SStatus.success) = true) :=
  c1_final_screenshot_amended okPageE uiReq c1Result (by rfl)

/-- Failed-result record built by the catch-all of
`_execute_test_async` for an exception message. -/
def errResult (req : TestRequest) (e : String) : TestResultR :=
  { testId := req.testId, status := TStatus.failed, success := false, steps := [],
    generatedScript := Enhanced.generate_error_script req e, error := some e }

/-- C5: no exception crosses to the caller. Whenever the per-test-type
branch raises, `_execute_test_async` (a total function here, so nothing
propagates) returns the failed result carrying the exception message,
an empty step sequence and the templated error script; and an exception
reaching the `_run_async_test` scheduler boundary is written to the
store as a failed record with the message. -/
theorem c5_exception_containment :
    ∀ (page : Enhanced.PageE) (api : Except String Enhanced.HttpResp)
      (req : TestRequest) (store : Store),
      (∀ e, Enhanced.run_branch page api req = Except.error e →
          Enhanced.execute_test_async_impl page api req = errResult req e)
      ∧ (∀ e,
          (Enhanced.run_async_test store req (Except.error e)).testStatus.lookup
              req.testId = some TStatus.failed
          ∧ (Enhanced.run_async_test store req (Except.error e)).testResults.lookup
              req.testId = some (errResult req e)) := by
  intro page api req store
  constructor
  · intro e he
    simp only [Enhanced.execute_test_async_impl, he]
    rfl
  · intro e
    constructor <;>
      simp [Enhanced.run_async_test, Enhanced.write_result,
        Enhanced.write_status, List.lookup, errResult]

/-- Page oracle whose browser launch raises, used by the C5 witness. -/
def launchFailPage : Enhanced.PageE :=
  { okPageE with launch := Except.error "browser launch failed" }

theorem c5_witness :
    Enhanced.execute_test_async_impl launchFailPage (Except.error "net down") uiReq
        = errResult uiReq "browser launch failed"
    ∧ (Enhanced.run_async_test demoStore uiReq
          (Except.error "worker crashed")).testStatus.lookup "t-001"
        = some TStatus.failed :=
  ⟨(c5_exception_containment launchFailPage (Except.error "net down") uiReq demoStore).1
      "browser launch failed" (by rfl),
   ((c5_exception_containment launchFailPage (Except.error "net down") uiReq demoStore).2
      "worker crashed").1⟩

/-- Mock response of the spec's API scenario: a 200 answer carrying
JSON. -/
def mockOkResp : Enhanced.HttpResp :=
  { statusCode := 200, elapsedStr := "0.10",
    contentType := "application/json",
    jsonBody := some "\x7b\n  \x22ok\x22: true\n\x7d", textBody := "" }

/-- C8: every API test run produces exactly one step; that step succeeds
exactly when the request returned (did not raise) with a status code
below 400; the generated script always contains the below-400 status
assertion; and on the spec's scenario prompt with a 200 JSON response
the single step succeeds with a "Status Code: 200" log line. -/
theorem c8_api_single_step :
    (∀ (prompt : String) (resp : Except String Enhanced.HttpResp),
        (Enhanced.execute_api_test prompt resp).steps.length = 1
        ∧ ((Enhanced.execute_api_test prompt resp).steps.map (fun s => s.status)
              = [SStatus.success]
            ↔ ∃ r, resp = Except.ok r ∧ r.statusCode < 400)
        ∧ subStr Enhanced.api_assert_line
            (Enhanced.execute_api_test prompt resp).generatedScript = true)
    ∧ (Enhanced.execute_api_test "test the GET /users endpoint returning JSON"
          (Except.ok mockOkResp)).steps.map
            (fun s => (s.status, s.logs.contains "Status Code: 200"))
        = [(SStatus.success, true)] := by
  constructor
  · intro prompt resp
    cases resp with
    | error e =>
      refine ⟨rfl, ?_, ?_⟩
      · simp [Enhanced.execute_api_test]
      · apply subStr_joinLines_of_mem
        simp [Enhanced.execute_api_test, Enhanced.api_script_header]
    | ok r =>
      refine ⟨rfl, ?_, ?_⟩
      · by_cases hc : r.statusCode < 400 <;>
          simp [Enhanced.execute_api_test, hc]
      · apply subStr_joinLines_of_mem
        simp [Enhanced.execute_api_test, Enhanced.api_script_header]
  · decide

/-- Status of an API test result is completed or failed. -/
theorem execute_api_test_status (prompt : String)
    (resp : Except String Enhanced.HttpResp) :
    (Enhanced.execute_api_test prompt resp).status = TStatus.completed
    ∨ (Enhanced.execute_api_test prompt resp).status = TStatus.failed := by
  cases resp <;> (simp only [Enhanced.execute_api_test]; split <;> simp)

/-- Status of any normal branch result is completed or failed. -/
theorem run_branch_ok_status (page : Enhanced.PageE)
    (api : Except String Enhanced.HttpResp) (req : TestRequest) (r : TestResultR)
    (h : Enhanced.run_branch page api req = Except.ok r) :
    r.status = TStatus.completed ∨ r.status = TStatus.failed := by
  unfold Enhanced.run_branch at h
  split_ifs at h
  · injection h with h
    rw [← h]
    exact execute_api_test_status req.prompt api
  · obtain ⟨ls, ll, rfl⟩ := execute_ui_test_ok_eq page req r h
    exact assemble_ui_result_status ls ll page.finalShot
  · unfold Enhanced.execute_mixed_test at h
    obtain ⟨ls, ll, rfl⟩ := execute_ui_test_ok_eq page req r h
    exact assemble_ui_result_status ls ll page.finalShot
  · obtain ⟨ls, ll, rfl⟩ := execute_ui_test_ok_eq page req r h
    exact assemble_ui_result_status ls ll page.finalShot

/-- Status written by a completing worker thread is completed or
failed. -/
theorem execute_test_async_impl_status (page : Enhanced.PageE)
    (api : Except String Enhanced.HttpResp) (req : TestRequest) :
    (Enhanced.execute_test_async_impl page api req).status = TStatus.completed
    ∨ (Enhanced.execute_test_async_impl page api req).status = TStatus.failed := by
  unfold Enhanced.execute_test_async_impl
  rcases hb : Enhanced.run_branch page api req with e | r
  · simp
  · have := run_branch_ok_status page api req r hb
    simpa using this

/-- C3 counterexample: the submit path writes status running (not
pending) for the new job id, and after the worker thread's first store
write — the result assignment of line 41/45, before the status
assignment of line 42/52 — the store is in a reachable state where the
job's result is present while its status is still running, violating
both the claimed pending step and the claimed iff-invariant. -/
theorem c3_counterexample :
    ((Enhanced.execute_test_async_submit { testStatus := [], testResults := [] }
          uiReq).testStatus.lookup "t-001" = some TStatus.running
      ∧ TStatus.running ≠ TStatus.pending)
    ∧ (Enhanced.Reachable
        (Enhanced.write_result
          (Enhanced.execute_test_async_submit
            { testStatus := [], testResults := [] } uiReq)
          uiReq (Except.error "boom"))
      ∧ ((Enhanced.write_result
            (Enhanced.execute_test_async_submit
              { testStatus := [], testResults := [] } uiReq)
            uiReq (Except.error "boom")).testResults.lookup "t-001").isSome = true
      ∧ (Enhanced.write_result
            (Enhanced.execute_test_async_submit
              { testStatus := [], testResults := [] } uiReq)
            uiReq (Except.error "boom")).testStatus.lookup "t-001"
          = some TStatus.running) :=
  ⟨⟨by decide, by decide⟩,
    Enhanced.Reachable.workerResultErr _ uiReq "boom"
      (Enhanced.Reachable.submit _ uiReq Enhanced.Reachable.empty rfl rfl),
    by decide, by decide⟩

/-- C3 as amended: submit records status running (not pending) for the
submitted id without touching the results map; the worker then writes
the result and the final status as two separate store writes in that
order, so in every reachable state a job whose status is completed or
failed has its result present — the converse direction fails between
the two writes, where a running job already has a result. -/
theorem c3_lifecycle_amended :
    (∀ (s : Store) (req : TestRequest),
        (Enhanced.execute_test_async_submit s req).testStatus.lookup req.testId
            = some TStatus.running
        ∧ (Enhanced.execute_test_async_submit s req).testResults = s.testResults)
    ∧ (∀ s : Store, Enhanced.Reachable s → ∀ (id : String) (st : TStatus),
        s.testStatus.lookup id = some st →
        (st = TStatus.completed ∨ st = TStatus.failed) →
        (s.testResults.lookup id).isSome = true) := by
  constructor
  · intro s req
    exact ⟨by simp [Enhanced.execute_test_async_submit, List.lookup], rfl⟩
  · intro s hs
    induction hs with
    | empty =>
      intro id st hst hdisj
      simp [List.lookup] at hst
    | submit s req hr hstat hres ih =>
      intro id st hst hdisj
      by_cases hid : id = req.testId
      · subst hid
        have e2 : (Enhanced.execute_test_async_submit s req).testStatus
            = (req.testId, TStatus.running) :: s.testStatus := rfl
        rw [e2] at hst
        simp [List.lookup] at hst
        rcases hdisj with h | h <;> (rw [← hst] at h; cases h)
      · have e1 : (Enhanced.execute_test_async_submit s req).testResults.lookup id
            = s.testResults.lookup id := rfl
        have e2 : (Enhanced.execute_test_async_submit s req).testStatus.lookup id
            = s.testStatus.lookup id := by
          show List.lookup id ((req.testId, TStatus.running) :: s.testStatus)
              = s.testStatus.lookup id
          simp [List.lookup, beq_eq_false_iff_ne.mpr hid]
        rw [e1]
        rw [e2] at hst
        exact ih id st hst hdisj
    | workerResultOk s req page api hr ih =>
      intro id st hst hdisj
      by_cases hid : id = req.testId
      · subst hid
        simp [Enhanced.write_result, List.lookup]
      · have e1 : (Enhanced.write_result s req
              (Except.ok (Enhanced.execute_test_async_impl page api req))).testResults.lookup id
            = s.testResults.lookup id := by
          simp [Enhanced.write_result, List.lookup, beq_eq_false_iff_ne.mpr hid]
        have e2 : (Enhanced.write_result s req
              (Except.ok (Enhanced.execute_test_async_impl page api req))).testStatus
            = s.testStatus := rfl
        rw [e1]
        rw [e2] at hst
        exact ih id st hst hdisj
    | workerResultErr s req e hr ih =>
      intro id st hst hdisj
      by_cases hid : id = req.testId
      · subst hid
        simp [Enhanced.write_result, List.lookup]
      · have e1 : (Enhanced.write_result s req (Except.error e)).testResults.lookup id
            = s.testResults.lookup id := by
          simp [Enhanced.write_result, List.lookup, beq_eq_false_iff_ne.mpr hid]
        have e2 : (Enhanced.write_result s req (Except.error e)).testStatus
            = s.testStatus := rfl
        rw [e1]
        rw [e2] at hst
        exact ih id st hst hdisj
    | workerStatusOk s req page api hr hsome ih =>
      intro id st hst hdisj
      have e1 : (Enhanced.write_status s req
            (Except.ok (Enhanced.execute_test_async_impl page api req))).testResults
          = s.testResults := rfl
      rw [e1]
      by_cases hid : id = req.testId
      · subst hid
        exact hsome
      · have e2 : (Enhanced.write_status s req
              (Except.ok (Enhanced.execute_test_async_impl page api req))).testStatus.lookup id
            = s.testStatus.lookup id := by
          simp [Enhanced.write_status, List.lookup, beq_eq_false_iff_ne.mpr hid]
        rw [e2] at hst
        exact ih id st hst hdisj
    | workerStatusErr s req e hr hsome ih =>
      intro id st hst hdisj
      have e1 : (Enhanced.write_status s req (Except.error e)).testResults
          = s.testResults := rfl
      rw [e1]
      by_cases hid : id = req.testId
      · subst hid
        exact hsome
      · have e2 : (Enhanced.write_status s req (Except.error e)).testStatus.lookup id
            = s.testStatus.lookup id := by
          simp [Enhanced.write_status, List.lookup, beq_eq_false_iff_ne.mpr hid]
        rw [e2] at hst
        exact ih id st hst hdisj

theorem c3_witness :
    ((Enhanced.write_status
          (Enhanced.write_result
            (Enhanced.execute_test_async_submit
              { testStatus := [], testResults := [] } uiReq)
            uiReq (Except.error "boom"))
          uiReq (Except.error "boom")).testResults.lookup "t-001").isSome = true :=
  c3_lifecycle_amended.2 _
    (Enhanced.Reachable.workerStatusErr _ uiReq "boom"
      (Enhanced.Reachable.workerResultErr _ uiReq "boom"
        (Enhanced.Reachable.submit _ uiReq Enhanced.Reachable.empty rfl rfl))
      (by decide))
    "t-001" TStatus.failed (by decide) (Or.inr rfl)

end PWMCP
